import Mathlib

/-
Verification of `Base/Python/slicer/lazy.py` (lazy import groups).

The Python module is shallowly embedded: each function of the source is
translated to a Lean definition over explicit state (the global module
registry `sys.modules`, the meta-path chain `sys.meta_path`, the group's
own fields), and the externally observable calls (pip dry run, pip
install, cache invalidation, module import, ...) are recorded in an event
trace.  The external installer (`_executePythonModule("pip", ...)`) is an
opaque collaborator and is represented by an `Adapter` describing what
its two invocations return.
-/

namespace SlicerLazy

/-- One entry of the pip dry-run report's `install` list: `report["install"]`
with the `metadata` fields `name`, `version` and optional `summary` that
`_pip_install` reads. -/
structure PipEntry where
  name : String
  version : String
  summary : Option String
deriving DecidableEq

/-- The parsed JSON report produced by `pip install --dry-run --no-deps --report`. -/
structure PipReport where
  install : List PipEntry
deriving DecidableEq

/-- Externally observable effects of `slicer.lazy`, in program order:
`dryRun` is the `pip install --dry-run` subprocess, `pipInstallReal` the real
`pip install`, `invalidateCaches` is `importlib.invalidate_caches()`,
`setClassModuleType` is the assignment `self.__class__ = types.ModuleType`
in `VeryLazyModule.__getattr__` (the transition that disables the trap),
`unlockNames` is the `group.unlock()` call, `importReal` the
`importlib.import_module` call, `keepRealRef` the assignment to
`self.__real_module__`, and `copyDict` the `self.__dict__.update(...)`. -/
inductive Event where
  | dryRun
  | pipInstallReal
  | invalidateCaches
  | setClassModuleType
  | unlockNames
  | importReal
  | keepRealRef
  | copyDict
deriving DecidableEq

/-- Python exceptions distinguished by this development.  `moduleNotFound`
stands for `ModuleNotFoundError` (a subtype of `ImportError`), `keyError`
for `KeyError`, `valueError` for `ValueError`, `attributeError` for
`AttributeError`, and `subprocessError` for a failure raised by the
external pip subprocess. -/
inductive PyError where
  | moduleNotFound (msg : String)
  | keyError (key : String)
  | valueError (msg : String)
  | attributeError (attr : String)
  | subprocessError (msg : String)
deriving DecidableEq

/-- Whether an error is a `ModuleNotFoundError` (the "unit not found" kind). -/
def PyError.isModuleNotFound : PyError → Bool
  | .moduleNotFound _ => true
  | _ => false

/-- Behaviour of the external installer for one `_pip_install` invocation:
what the dry-run subprocess produces (a report, or a raised failure) and
what the real-install subprocess produces. -/
structure Adapter where
  dryRunResult : Except PyError PipReport
  installResult : Except PyError Unit

/-- The function `_pip_install` of `lazy.py`: run `pip install --dry-run
--no-deps --report`, parse the report, log each entry (pure logging is not
modelled), and when `report["install"]` is non-empty run the real
`pip install` followed by `importlib.invalidate_caches()`.  Returns the
trace of external calls together with the Python outcome; a failure of
either subprocess propagates. -/
def pipInstall (a : Adapter) : List Event × Except PyError Unit :=
  match a.dryRunResult with
  | .error e => ([.dryRun], .error e)
  | .ok report =>
      if report.install.isEmpty then ([.dryRun], .ok ())
      else
        match a.installResult with
        | .error e => ([.dryRun, .pipInstallReal], .error e)
        | .ok _ => ([.dryRun, .pipInstallReal, .invalidateCaches], .ok ())

/-- Lookup in an association list keyed by strings; first match wins, as
for a Python `dict` (which holds each key once). -/
def lookupAssoc {α : Type} : List (String × α) → String → Option α
  | [], _ => none
  | (k, v) :: rest, n => if k = n then some v else lookupAssoc rest n

/-- Assignment `d[n] = v` on an association list: overwrite the first
binding of `n`, or append when absent. -/
def setAssoc {α : Type} : List (String × α) → String → α → List (String × α)
  | [], n, v => [(n, v)]
  | (k, w) :: rest, n, v =>
      if k = n then (k, v) :: rest else (k, w) :: setAssoc rest n v

/-- Deletion `del d[n]` on an association list, removing the first binding
of `n` (total: the callers below only delete keys they have looked up). -/
def eraseAssoc {α : Type} : List (String × α) → String → List (String × α)
  | [], _ => []
  | (k, w) :: rest, n => if k = n then rest else (k, w) :: eraseAssoc rest n

/-- A binding in the global module registry `sys.modules`: either an actual
module object, identified by a numeric object identity, or the `None`
sentinel written by `ImportGroup.lock` to halt plain imports. -/
inductive Binding where
  | module (id : Nat)
  | locked
deriving DecidableEq

/-- The resolved `self.requires` field of an `ImportGroup`: either a
resource path anchored in a package (`importlib.resources.files(dummy)
.joinpath(path)` for a `"pak:path"` argument) or a bare path built from
the calling module's name (`Path(calling_module.__name__).parent
.joinpath(path)`). -/
inductive Address where
  | anchored (pak : String) (path : String)
  | bare (callerModuleName : String) (path : String)
deriving DecidableEq

/-- Python `requires.rpartition(":")`, restricted to the two components
`__init__` uses: the text before the last colon and the text after it;
when no colon occurs the "before" part is empty and the "after" part is
the whole string. -/
def rpartitionColon (s : String) : String × String :=
  match s.toList.reverse.span (fun c => c ≠ ':') with
  | (_, []) => ("", s)
  | (afterRev, _ :: beforeRev) =>
      (String.mk beforeRev.reverse, String.mk afterRev.reverse)

/-- The state of one `ImportGroup` from `lazy.py`: the resolved `requires`
address, the one-shot `need_install` flag, the registered guarded modules
(`self.modules`, a dict from module name to the placeholder module object,
here identified by numeric object identity), the diagnostic `caller_name`,
and the identity of this group's `VeryLazyFinder` in `sys.meta_path`. -/
structure ImportGroup where
  requires : Option Address
  need_install : Bool
  modules : List (String × Nat)
  caller_name : String
  finder : Nat
deriving DecidableEq

/-- The constructor `ImportGroup.__init__`.  `callerName` stands for the
computed diagnostic label, `callerModuleName` for `calling_module.__name__`,
`fid` for the identity of the fresh `VeryLazyFinder`.  Faithful to the
source: `if not requires` (true for both `None` and the empty string) sets
`self.requires = None`; otherwise `requires.rpartition(":")` decides
between the anchored form (non-empty `pak`; locating the anchor package's
spec is assumed to succeed, as asserted in the source) and the bare form;
and `self.need_install = requires is not None`. -/
def ImportGroup.init (callerName : String) (callerModuleName : String)
    (fid : Nat) (requires : Option String) : ImportGroup :=
  let requiresField : Option Address :=
    match requires with
    | none => none
    | some s =>
        if s.isEmpty then none
        else
          let parts := rpartitionColon s
          if parts.1.isEmpty then some (.bare callerModuleName parts.2)
          else some (.anchored parts.1 parts.2)
  { requires := requiresField
    need_install := requires.isSome
    modules := []
    caller_name := callerName
    finder := fid }

/-- `ImportGroup.register`: record a placeholder module (name taken from
`module.__spec__.name`, object identity `mid`) in `self.modules`. -/
def ImportGroup.register (g : ImportGroup) (name : String) (mid : Nat) :
    ImportGroup :=
  { g with modules := setAssoc g.modules name mid }

/-- The loop body of `ImportGroup.lock` over the registered modules:
`sys.modules[name]` raises `KeyError` when the name is absent from the
registry; when the binding is still this group's own placeholder object
(`is` comparison, i.e. identical object identity) it is overwritten with
the `None` sentinel; any other binding is left untouched. -/
def lockGo : List (String × Nat) → List (String × Binding) →
    Except PyError (List (String × Binding))
  | [], reg => .ok reg
  | (name, mid) :: rest, reg =>
      match lookupAssoc reg name with
      | none => .error (.keyError name)
      | some b =>
          if b = Binding.module mid then lockGo rest (setAssoc reg name Binding.locked)
          else lockGo rest reg

/-- `ImportGroup.lock`: halt plain imports of every registered module whose
registry binding is still this group's own placeholder. -/
def ImportGroup.lock (g : ImportGroup) (reg : List (String × Binding)) :
    Except PyError (List (String × Binding)) :=
  lockGo g.modules reg

/-- The loop body of `ImportGroup.unlock`: for each registered name, when
the name is bound in the registry and its binding is the `None` sentinel,
delete the entry so a bare import can proceed. -/
def unlockGo : List (String × Nat) → List (String × Binding) →
    List (String × Binding)
  | [], reg => reg
  | (name, _) :: rest, reg =>
      match lookupAssoc reg name with
      | some Binding.locked => unlockGo rest (eraseAssoc reg name)
      | _ => unlockGo rest reg

/-- `ImportGroup.unlock`: remove the `None` sentinels of this group's
registered names from the registry. -/
def ImportGroup.unlock (g : ImportGroup) (reg : List (String × Binding)) :
    List (String × Binding) :=
  unlockGo g.modules reg

/-- `ImportGroup.resolve`: return immediately when `need_install` is unset
or no requirements address is present; otherwise run `_pip_install` on the
requirements file and, on success, clear `need_install`.  Returns the
trace of external calls, the updated group, and the Python outcome. -/
def ImportGroup.resolve (g : ImportGroup) (a : Adapter) :
    List Event × ImportGroup × Except PyError Unit :=
  if !g.need_install then ([], g, .ok ())
  else if g.requires.isNone then ([], g, .ok ())
  else
    match pipInstall a with
    | (tr, .error e) => (tr, g, .error e)
    | (tr, .ok _) => (tr, { g with need_install := false }, .ok ())

/-- `ImportGroup.__enter__`: `sys.meta_path.insert(0, self.finder)`. -/
def enterMetaPath (chain : List Nat) (g : ImportGroup) : List Nat :=
  g.finder :: chain

/-- Python `list.remove(x)`: remove the first occurrence of `x`, raising
`ValueError` when `x` does not occur. -/
def listRemoveFirst (chain : List Nat) (x : Nat) :
    Except PyError (List Nat) :=
  if x ∈ chain then .ok (chain.erase x)
  else .error (.valueError "list.remove(x): x not in list")

/-- `ImportGroup.__exit__`: `sys.meta_path.remove(self.finder)` followed by
`self.lock()`.  Returns the updated meta-path chain and registry. -/
def ImportGroup.exitCtx (g : ImportGroup) (chain : List Nat)
    (reg : List (String × Binding)) :
    Except PyError (List Nat × List (String × Binding)) :=
  match listRemoveFirst chain g.finder with
  | .error e => .error e
  | .ok chain2 =>
      match g.lock reg with
      | .error e => .error e
      | .ok reg2 => .ok (chain2, reg2)

/-- The environment surrounding a lazy import: `loadEnv name` describes
what a fresh genuine load of `name` produces (the new module object's
identity, or `none` when no such module exists), and `dictEnv i` gives the
`__dict__` attribute names of the module object with identity `i`. -/
structure World where
  loadEnv : String → Option Nat
  dictEnv : Nat → List String

/-- Modelled from the spec: `importlib.import_module` — the ordinary
(un-hooked) resolution path of CPython's import machinery, which lives
outside this repository.  Its behaviour is fixed by the spec (§4.3 step 3,
§7 "Halted-name error") and by the docstring of `ImportGroup.lock`: an
existing `sys.modules` binding is returned as-is; the `None` sentinel makes
the lookup fail with `ModuleNotFoundError: import of <name> halted; None in
sys.modules`; an absent name performs a genuine load, recording the fresh
module in the registry, or raises the ordinary `ModuleNotFoundError:
No module named <name>`. -/
def importModule (w : World) (reg : List (String × Binding)) (name : String) :
    List (String × Binding) × Except PyError Nat :=
  match lookupAssoc reg name with
  | some (Binding.module i) => (reg, .ok i)
  | some Binding.locked =>
      (reg, .error (.moduleNotFound
        ("import of " ++ name ++ " halted; None in sys.modules")))
  | none =>
      match w.loadEnv name with
      | none => (reg, .error (.moduleNotFound ("No module named " ++ name)))
      | some i => (setAssoc reg name (Binding.module i), .ok i)

/-- A module object produced by `VeryLazyLoader.exec_module`: its spec
name, its object identity, whether its `__class__` is still
`VeryLazyModule` (so attribute access traps), its instance `__dict__`
attribute names, and the `__real_module__` reference once set. -/
structure Placeholder where
  name : String
  mid : Nat
  isVeryLazy : Bool
  dict : List String
  realRef : Option Nat
deriving DecidableEq

/-- Outcome of one attribute access on a placeholder: the trace of
external calls, the successive placeholder states visible to re-entrant
code during the protocol (in order), the updated group, registry and
placeholder, and the Python outcome (`.ok attr` when the requested
attribute is available on the final object). -/
structure TrapResult where
  trace : List Event
  states : List Placeholder
  group : ImportGroup
  reg : List (String × Binding)
  ph : Placeholder
  result : Except PyError String

/-- The body of `VeryLazyModule.__getattr__`, in source order:
`self.__class__ = types.ModuleType` first (after which attribute access no
longer traps), then `group.unlock()`, then `group.resolve()`, then
`self.__real_module__ = importlib.import_module(self.__spec__.name)`, then
`self.__dict__.update(self.__real_module__.__dict__)`, then
`return getattr(self, attr)`.  A failure raised by `resolve` or by the
genuine load propagates out of the trap unchanged. -/
def trap (w : World) (a : Adapter) (g : ImportGroup)
    (reg : List (String × Binding)) (p : Placeholder) (attr : String) :
    TrapResult :=
  let p1 : Placeholder := { p with isVeryLazy := false }
  let reg1 := g.unlock reg
  let rtr := (g.resolve a).1
  let g1 := (g.resolve a).2.1
  match (g.resolve a).2.2 with
  | .error e =>
      { trace := Event.setClassModuleType :: Event.unlockNames :: rtr
        states := [p1], group := g1, reg := reg1, ph := p1
        result := .error e }
  | .ok _ =>
      let reg2 := (importModule w reg1 p.name).1
      match (importModule w reg1 p.name).2 with
      | .error e =>
          { trace := (Event.setClassModuleType :: Event.unlockNames :: rtr) ++
              [Event.importReal]
            states := [p1], group := g1, reg := reg2, ph := p1
            result := .error e }
      | .ok rid =>
          let p2 : Placeholder :=
            { p1 with
              realRef := some rid
              dict := p1.dict ++ ["__real_module__"] }
          let p3 : Placeholder := { p2 with dict := p2.dict ++ w.dictEnv rid }
          { trace := (Event.setClassModuleType :: Event.unlockNames :: rtr) ++
              [Event.importReal, Event.keepRealRef, Event.copyDict]
            states := [p1, p2, p3], group := g1, reg := reg2, ph := p3
            result := if attr ∈ p3.dict then .ok attr
                      else .error (.attributeError attr) }

/-- Python attribute lookup on a module object: a name present in the
instance `__dict__` is returned without invoking `__getattr__`; otherwise
`VeryLazyModule.__getattr__` traps when the object's class is still
`VeryLazyModule`; otherwise plain `types.ModuleType` raises
`AttributeError`. -/
def getattrPy (w : World) (a : Adapter) (g : ImportGroup)
    (reg : List (String × Binding)) (p : Placeholder) (attr : String) :
    TrapResult :=
  if attr ∈ p.dict then
    { trace := [], states := [], group := g, reg := reg, ph := p
      result := .ok attr }
  else if p.isVeryLazy then trap w a g reg p attr
  else
    { trace := [], states := [], group := g, reg := reg, ph := p
      result := .error (.attributeError attr) }

/-- The function `real_module` of `lazy.py`:
`getattr(module, "__real_module__", module)` — returns the genuine module
object's identity when the reference is available (triggering resolution
on an unresolved placeholder), and the given object itself when the
attribute lookup raises `AttributeError`. -/
def realModuleFn (w : World) (a : Adapter) (g : ImportGroup)
    (reg : List (String × Binding)) (p : Placeholder) :
    List Event × Except PyError Nat :=
  let r := getattrPy w a g reg p "__real_module__"
  match r.result with
  | .ok _ =>
      match r.ph.realRef with
      | some rid => (r.trace, .ok rid)
      | none => (r.trace, .ok r.ph.mid)
  | .error (.attributeError _) => (r.trace, .ok p.mid)
  | .error e => (r.trace, .error e)

/-- A sequence of `resolve()` calls on one group, each call facing its own
installer behaviour; returns the concatenated trace and the final group. -/
def resolveSeq : ImportGroup → List Adapter → List Event × ImportGroup
  | g, [] => ([], g)
  | g, a :: rest =>
      let tr := (g.resolve a).1
      let g1 := (g.resolve a).2.1
      let r2 := resolveSeq g1 rest
      (tr ++ r2.1, r2.2)

/-- Index of the first occurrence of an event in a trace (length of the
trace when absent). -/
def eventIdx : List Event → Event → Nat
  | [], _ => 0
  | e :: rest, x => if e = x then 0 else eventIdx rest x + 1

/-! Concrete fixtures used by counterexamples and witnesses. -/

/-- A single requirement entry, as the dry-run report would list it. -/
def entryDummy : PipEntry := { name := "dummy", version := "1.0.0", summary := none }

/-- A dry-run report listing one package to install. -/
def reportOne : PipReport := { install := [entryDummy] }

/-- Installer behaviour: dry run reports one package, real install succeeds. -/
def adOk : Adapter := { dryRunResult := .ok reportOne, installResult := .ok () }

/-- Installer behaviour: dry run reports one package, real install raises. -/
def adFailInstall : Adapter :=
  { dryRunResult := .ok reportOne
    installResult := .error (.subprocessError "pip install failed") }

/-- Installer behaviour: the dry run itself raises. -/
def adFailDry : Adapter :=
  { dryRunResult := .error (.subprocessError "pip dry run failed")
    installResult := .ok () }

/-- Installer behaviour: dry run reports nothing to install. -/
def adEmpty : Adapter :=
  { dryRunResult := .ok { install := [] }, installResult := .ok () }

/-- A group constructed with a dependency spec, guarding module `dummy`
whose placeholder has object identity 10. -/
def gReq : ImportGroup :=
  (ImportGroup.init "Module.py" "Module" 1
    (some "libCompute:requirements.txt")).register "dummy" 10

/-- A group constructed without a dependency spec, guarding `dummy`. -/
def gPlain : ImportGroup :=
  (ImportGroup.init "Module.py" "Module" 2 none).register "dummy" 10

/-- The fresh, unresolved placeholder for `dummy`. -/
def phDummy : Placeholder :=
  { name := "dummy", mid := 10, isVeryLazy := true, dict := [], realRef := none }

/-- An environment in which a genuine load of `dummy` produces module
object 42 whose `__dict__` holds the single attribute `magic`. -/
def wDummy : World :=
  { loadEnv := fun n => if n = "dummy" then some 42 else none
    dictEnv := fun i => if i = 42 then ["magic"] else [] }

/-- The registry after `gReq` (or `gPlain`) has exited: `dummy` is halted. -/
def regLocked : List (String × Binding) := [("dummy", Binding.locked)]

/-- A guard with no dependency spec and no registered modules, hook identity 1,
entered first in the nested-guard scenario. -/
def gOuter : ImportGroup := ImportGroup.init "Outer.py" "Outer" 1 none

/-- A second guard, hook identity 2, entered while `gOuter` is still active. -/
def gInner : ImportGroup := ImportGroup.init "Inner.py" "Inner" 2 none

/-! Helper lemmas about the registry operations. -/

theorem lookupAssoc_setAssoc_self {α : Type} (l : List (String × α))
    (n : String) (v : α) : lookupAssoc (setAssoc l n v) n = some v := by
  induction l with
  | nil => simp [setAssoc, lookupAssoc]
  | cons hd tl ih =>
      obtain ⟨k, w⟩ := hd
      by_cases h : k = n
      · simp [setAssoc, h, lookupAssoc]
      · simp [setAssoc, h, lookupAssoc, ih]

theorem lookupAssoc_setAssoc_ne {α : Type} (l : List (String × α))
    (n n' : String) (v : α) (h : n' ≠ n) :
    lookupAssoc (setAssoc l n' v) n = lookupAssoc l n := by
  induction l with
  | nil => simp [setAssoc, lookupAssoc, h]
  | cons hd tl ih =>
      obtain ⟨k, w⟩ := hd
      by_cases hk : k = n'
      · subst hk
        simp [setAssoc, lookupAssoc, h]
      · simp [setAssoc, hk, lookupAssoc, ih]

theorem lockGo_preserves_locked (mods : List (String × Nat))
    (reg reg' : List (String × Binding)) (n : String)
    (h : lookupAssoc reg n = some Binding.locked)
    (hok : lockGo mods reg = .ok reg') :
    lookupAssoc reg' n = some Binding.locked := by
  induction mods generalizing reg with
  | nil =>
      simp only [lockGo, Except.ok.injEq] at hok
      subst hok
      exact h
  | cons hd tl ih =>
      obtain ⟨n0, m0⟩ := hd
      simp only [lockGo] at hok
      split at hok
      · exact absurd hok (by simp)
      · rename_i b hb
        split at hok
        · rename_i hbm
          refine ih (setAssoc reg n0 Binding.locked) ?_ hok
          by_cases hn : n0 = n
          · rw [← hn]
            exact lookupAssoc_setAssoc_self _ _ _
          · rw [lookupAssoc_setAssoc_ne reg n n0 Binding.locked hn]
            exact h
        · exact ih reg h hok

theorem lockGo_locks (mods : List (String × Nat))
    (reg reg' : List (String × Binding)) (n : String) (m : Nat)
    (hmem : (n, m) ∈ mods)
    (hbind : lookupAssoc reg n = some (Binding.module m))
    (hok : lockGo mods reg = .ok reg') :
    lookupAssoc reg' n = some Binding.locked := by
  induction mods generalizing reg with
  | nil => cases hmem
  | cons hd tl ih =>
      obtain ⟨n0, m0⟩ := hd
      simp only [lockGo] at hok
      split at hok
      · exact absurd hok (by simp)
      · rename_i b hb
        split at hok
        · rename_i hbm
          by_cases hn : n0 = n
          · refine lockGo_preserves_locked tl _ reg' n ?_ hok
            rw [← hn]
            exact lookupAssoc_setAssoc_self _ _ _
          · have hmem2 : (n, m) ∈ tl := by
              rcases List.mem_cons.mp hmem with heq | htl
              · exact absurd (congrArg Prod.fst heq).symm hn
              · exact htl
            refine ih (setAssoc reg n0 Binding.locked) hmem2 ?_ hok
            rw [lookupAssoc_setAssoc_ne reg n n0 Binding.locked hn]
            exact hbind
        · rename_i hbm
          have hmem2 : (n, m) ∈ tl := by
            rcases List.mem_cons.mp hmem with heq | htl
            · exfalso
              have h1 : n = n0 := congrArg Prod.fst heq
              have h2 : m = m0 := congrArg Prod.snd heq
              apply hbm
              rw [← h2]
              have hbind2 : lookupAssoc reg n0 = some (Binding.module m) := by
                rw [← h1]
                exact hbind
              rw [hbind2] at hb
              exact (Option.some.inj hb).symm
            · exact htl
          exact ih reg hmem2 hbind hok

theorem lockGo_keyError (mods : List (String × Nat))
    (reg : List (String × Binding)) (n : String) (m : Nat)
    (hmem : (n, m) ∈ mods) (habs : lookupAssoc reg n = none) :
    ∃ k, lockGo mods reg = .error (.keyError k) ∧
      lookupAssoc reg k = none ∧ ∃ m2, (k, m2) ∈ mods := by
  induction mods generalizing reg with
  | nil => cases hmem
  | cons hd tl ih =>
      obtain ⟨n0, m0⟩ := hd
      cases hb : lookupAssoc reg n0 with
      | none =>
          refine ⟨n0, ?_, hb, m0, List.mem_cons_self _ _⟩
          simp [lockGo, hb]
      | some b =>
          have hn : n0 ≠ n := by
            intro hcon
            rw [hcon, habs] at hb
            cases hb
          have hmem2 : (n, m) ∈ tl := by
            rcases List.mem_cons.mp hmem with heq | htl
            · exact absurd (congrArg Prod.fst heq).symm hn
            · exact htl
          by_cases hbm : b = Binding.module m0
          · have habs2 : lookupAssoc (setAssoc reg n0 Binding.locked) n = none := by
              rw [lookupAssoc_setAssoc_ne reg n n0 Binding.locked hn]
              exact habs
            obtain ⟨k, hgo, hk, m2, hkm⟩ := ih (setAssoc reg n0 Binding.locked) hmem2 habs2
            have hkreg : lookupAssoc reg k = none := by
              by_cases hkn : n0 = k
              · exfalso
                rw [← hkn, lookupAssoc_setAssoc_self _ _ _] at hk
                cases hk
              · rw [lookupAssoc_setAssoc_ne reg k n0 Binding.locked hkn] at hk
                exact hk
            refine ⟨k, ?_, hkreg, m2, List.mem_cons_of_mem _ hkm⟩
            simp [lockGo, hb, hbm, hgo]
          · obtain ⟨k, hgo, hk, m2, hkm⟩ := ih reg hmem2 habs
            refine ⟨k, ?_, hk, m2, List.mem_cons_of_mem _ hkm⟩
            simp [lockGo, hb, hbm, hgo]

theorem strAppend_assoc (a b c : String) : a ++ b ++ c = a ++ (b ++ c) := by
  obtain ⟨la⟩ := a
  obtain ⟨lb⟩ := b
  obtain ⟨lc⟩ := c
  show String.append (String.append ⟨la⟩ ⟨lb⟩) ⟨lc⟩ =
    String.append ⟨la⟩ (String.append ⟨lb⟩ ⟨lc⟩)
  simp [String.append, List.append_assoc]

theorem pipInstall_count_le_one (a : Adapter) :
    (pipInstall a).1.count Event.pipInstallReal ≤ 1 := by
  cases hd : a.dryRunResult with
  | error e => simp [pipInstall, hd]
  | ok report =>
      by_cases he : report.install.isEmpty
      · simp [pipInstall, hd, he]
      · cases hi : a.installResult with
        | error e => simp [pipInstall, hd, he, hi, List.count_cons]
        | ok u => simp [pipInstall, hd, he, hi, List.count_cons]

theorem getattrPy_no_trap (w : World) (a : Adapter) (g : ImportGroup)
    (reg : List (String × Binding)) (q : Placeholder) (attr : String)
    (hq : q.isVeryLazy = false) :
    (getattrPy w a g reg q attr).trace = [] := by
  by_cases hm : attr ∈ q.dict
  · simp [getattrPy, hm]
  · simp [getattrPy, hm, hq]

theorem resolve_count_le_one (g : ImportGroup) (a : Adapter) :
    (g.resolve a).1.count Event.pipInstallReal ≤ 1 := by
  have hc := pipInstall_count_le_one a
  cases hni : g.need_install with
  | false => simp [ImportGroup.resolve, hni]
  | true =>
      cases hre : g.requires with
      | none => simp [ImportGroup.resolve, hni, hre]
      | some addr =>
          cases hp : pipInstall a with
          | mk tr res =>
              rw [hp] at hc
              cases res with
              | error e => simpa [ImportGroup.resolve, hni, hre, hp] using hc
              | ok u => simpa [ImportGroup.resolve, hni, hre, hp] using hc

/-! Claims. -/

/-- C1 (counterexample to the claim as stated): for a Guard with a dependency
spec, a first `resolve()` whose real install step raises, followed by a second
`resolve()` that succeeds, invokes the Installer Adapter's real install step
twice — "invoked at most once across any number of calls" fails because a failed
install leaves `need_install` set and is retried. -/
theorem C1_counterexample :
    (resolveSeq gReq [adFailInstall, adOk]).1.count Event.pipInstallReal = 2 ∧
    (gReq.resolve adFailInstall).2.2 =
      .error (.subprocessError "pip install failed") :=
  ⟨by decide, rfl⟩

/-- C1 (amended): each `resolve()` call invokes the real install step at most
once, and after the first `resolve()` call that completes successfully every
later `resolve()` call is a no-op — empty trace, unchanged Guard state, success
— so the install step is never invoked again after a success; only failed
attempts can recur. -/
theorem C1_no_install_after_success (g : ImportGroup) (a : Adapter)
    (h : (g.resolve a).2.2 = .ok ()) :
    (g.resolve a).1.count Event.pipInstallReal ≤ 1 ∧
    ∀ a2, (g.resolve a).2.1.resolve a2 = ([], (g.resolve a).2.1, .ok ()) := by
  refine ⟨resolve_count_le_one g a, ?_⟩
  intro a2
  cases hni : g.need_install with
  | false => simp [ImportGroup.resolve, hni]
  | true =>
      cases hre : g.requires with
      | none => simp [ImportGroup.resolve, hni, hre]
      | some addr =>
          cases hp : pipInstall a with
          | mk tr res =>
              cases res with
              | error e =>
                  exfalso
                  simp [ImportGroup.resolve, hni, hre, hp] at h
              | ok u =>
                  simp [ImportGroup.resolve, hni, hre, hp]

/-- Witness for C1: a successful `resolve()` on `gReq`, after which any further
`resolve()` call is a no-op. -/
theorem C1_no_install_after_success_witness :
    (gReq.resolve adOk).1.count Event.pipInstallReal ≤ 1 ∧
    ∀ a2, (gReq.resolve adOk).2.1.resolve a2 = ([], (gReq.resolve adOk).2.1, .ok ()) :=
  C1_no_install_after_success gReq adOk rfl

/-- C3 (counterexample to the claim): with `gOuter` entered first and `gInner`
entered second, the chain is `[2, 1]` and `gOuter`'s hook is not the front
entry; yet `gOuter.__exit__` succeeds silently, removing the hook from the
middle of the chain, instead of reporting a fatal nesting error. -/
theorem C3_counterexample :
    enterMetaPath (enterMetaPath [] gOuter) gInner = [2, 1] ∧
    List.head? [2, 1] ≠ some gOuter.finder ∧
    gOuter.exitCtx [2, 1] [] = .ok ([2], []) :=
  ⟨rfl, by decide, rfl⟩

/-- C3 (amended): `__exit__` removes the first occurrence of this Guard's hook
from the resolution chain wherever it sits — front or not — and then locks; it
fails only when the hook is absent from the chain (`ValueError` from
`list.remove`); no front-entry check or fatal nesting report is performed. -/
theorem C3_exit_removes_first_occurrence (g : ImportGroup) (chain : List Nat)
    (reg reg2 : List (String × Binding)) :
    (g.finder ∈ chain → g.lock reg = .ok reg2 →
      g.exitCtx chain reg = .ok (chain.erase g.finder, reg2)) ∧
    (g.finder ∉ chain →
      g.exitCtx chain reg =
        .error (.valueError "list.remove(x): x not in list")) := by
  constructor
  · intro hmem hlock
    simp [ImportGroup.exitCtx, listRemoveFirst, hmem, hlock]
  · intro hmem
    simp [ImportGroup.exitCtx, listRemoveFirst, hmem]

/-- Witness for C3: the amended exit behaviour at the nested-guard scenario. -/
theorem C3_exit_removes_first_occurrence_witness :
    gOuter.exitCtx [2, 1] [] = .ok ([2], []) :=
  (C3_exit_removes_first_occurrence gOuter [2, 1] [] []).1 (by decide) rfl

/-- C8: an installer failure — from the dry run or from the real install —
propagates unchanged out of `resolve()` and out of the placeholder's trap, and
the Guard state (hence `need_install = true`) is left unchanged; the flag flips
to false only through a `resolve()` call that completes successfully. -/
theorem C8_installer_failure_propagates (g : ImportGroup) (a : Adapter)
    (w : World) (reg : List (String × Binding)) (p : Placeholder) (attr : String)
    (e : PyError) (hni : g.need_install = true)
    (hreq : g.requires.isNone = false) :
    (a.dryRunResult = .error e →
      g.resolve a = ([Event.dryRun], g, .error e) ∧
      (trap w a g reg p attr).result = .error e) ∧
    (∀ report, a.dryRunResult = .ok report → report.install.isEmpty = false →
      a.installResult = .error e →
      g.resolve a = ([Event.dryRun, Event.pipInstallReal], g, .error e) ∧
      (trap w a g reg p attr).result = .error e) ∧
    (∀ a2, (g.resolve a2).2.1.need_install = false →
      (g.resolve a2).2.2 = .ok ()) := by
  refine ⟨?_, ?_, ?_⟩
  · intro hd
    have hpip : pipInstall a = ([Event.dryRun], .error e) := by
      simp [pipInstall, hd]
    have hres : g.resolve a = ([Event.dryRun], g, .error e) := by
      simp [ImportGroup.resolve, hni, hreq, hpip]
    exact ⟨hres, by simp [trap, hres]⟩
  · intro report hd hne hi
    have hpip : pipInstall a = ([Event.dryRun, Event.pipInstallReal], .error e) := by
      simp [pipInstall, hd, hne, hi]
    have hres : g.resolve a = ([Event.dryRun, Event.pipInstallReal], g, .error e) := by
      simp [ImportGroup.resolve, hni, hreq, hpip]
    exact ⟨hres, by simp [trap, hres]⟩
  · intro a2 hpost
    cases hre : g.requires with
    | none => rw [hre] at hreq; cases hreq
    | some addr =>
        cases hp : pipInstall a2 with
        | mk tr res =>
            cases res with
            | error e2 =>
                exfalso
                rw [ImportGroup.resolve] at hpost
                simp [hni, hre, hp] at hpost
            | ok u => simp [ImportGroup.resolve, hni, hre, hp]

/-- Witness for C8: the dry-run failure of `adFailDry` propagates unchanged out
of `gReq.resolve` and out of the trap, with the Guard state unchanged. -/
theorem C8_installer_failure_propagates_witness :
    gReq.resolve adFailDry =
      ([Event.dryRun], gReq, .error (.subprocessError "pip dry run failed")) ∧
    (trap wDummy adFailDry gReq regLocked phDummy "magic").result =
      .error (.subprocessError "pip dry run failed") :=
  (C8_installer_failure_propagates gReq adFailDry wDummy regLocked phDummy "magic"
    (.subprocessError "pip dry run failed") rfl rfl).1 rfl

/-- C9 (counterexample to the claim): for the empty-string `requires` argument,
`need_install` is true immediately after construction although the
dependency-spec field is absent (`self.requires` is `None`), so "needsInstall
is true iff a dependency spec is present" fails at this edge case. -/
theorem C9_counterexample :
    (ImportGroup.init "Module.py" "Module" 3 (some "")).need_install = true ∧
    (ImportGroup.init "Module.py" "Module" 3 (some "")).requires = none :=
  ⟨rfl, rfl⟩

/-- C9 (amended): immediately after construction, `need_install` is true iff
the `requires` argument was provided (`requires is not None`), while the
dependency-spec field is present iff the argument was provided and non-empty;
the two coincide except for the empty-string argument, where `need_install` is
true although no dependency spec is recorded. -/
theorem C9_need_install_iff_argument (cn cm : String) (fid : Nat)
    (req : Option String) :
    (ImportGroup.init cn cm fid req).need_install = req.isSome ∧
    (req = none → (ImportGroup.init cn cm fid req).requires = none) ∧
    (∀ s, req = some s →
      ((ImportGroup.init cn cm fid req).requires = none ↔ s.isEmpty = true)) := by
  refine ⟨rfl, ?_, ?_⟩
  · intro h
    subst h
    rfl
  · intro s h
    subst h
    by_cases he : s.isEmpty
    · simp [ImportGroup.init, he]
    · constructor
      · intro hcon
        exfalso
        by_cases hp : (rpartitionColon s).1.isEmpty
        · simp [ImportGroup.init, he, hp] at hcon
        · simp [ImportGroup.init, he, hp] at hcon
      · intro hcon
        exact absurd hcon he

/-- C10: `lock()` is partial over the global registry: it requires every name
registered in the Guard to be present in `sys.modules`; when a registered name
has been removed from the registry beforehand, `lock()` raises `KeyError` for
an absent registered name instead of skipping it. -/
theorem C10_lock_requires_names_present (g : ImportGroup)
    (reg : List (String × Binding)) (name : String) (mid : Nat)
    (hmem : (name, mid) ∈ g.modules)
    (habs : lookupAssoc reg name = none) :
    ∃ k, g.lock reg = .error (.keyError k) ∧
      lookupAssoc reg k = none ∧ ∃ m2, (k, m2) ∈ g.modules :=
  lockGo_keyError g.modules reg name mid hmem habs

/-- Witness for C10: locking `gReq` against an empty registry raises `KeyError`
for its registered name `dummy`. -/
theorem C10_lock_requires_names_present_witness :
    ∃ k, gReq.lock [] = .error (.keyError k) ∧
      lookupAssoc ([] : List (String × Binding)) k = none ∧
      ∃ m2, (k, m2) ∈ gReq.modules :=
  C10_lock_requires_names_present gReq [] "dummy" 10 (by decide) rfl

/-- C2 (counterexample to the claim): at a concrete first attribute access the
transition out of the trapping state (`self.__class__ = types.ModuleType`) is
the very first step of the protocol — before the unlock and before the copy —
whereas the claim places the transition after the copy and in particular not
before the unlock. -/
theorem C2_counterexample :
    (trap wDummy adOk gReq regLocked phDummy "magic").trace =
      [Event.setClassModuleType, Event.unlockNames, Event.dryRun,
       Event.pipInstallReal, Event.invalidateCaches, Event.importReal,
       Event.keepRealRef, Event.copyDict] ∧
    eventIdx (trap wDummy adOk gReq regLocked phDummy "magic").trace
      Event.setClassModuleType <
    eventIdx (trap wDummy adOk gReq regLocked phDummy "magic").trace
      Event.unlockNames ∧
    eventIdx (trap wDummy adOk gReq regLocked phDummy "magic").trace
      Event.setClassModuleType <
    eventIdx (trap wDummy adOk gReq regLocked phDummy "magic").trace
      Event.copyDict := by
  decide

/-- C2 (amended): a first attribute access performs, in order: the transition
out of the trapping state (class set to `ModuleType`, before the unlock — this
is what keeps the protocol from re-entering), the unlock, the dependency
resolution, the genuine load, keeping the genuine-unit reference, copying its
members, and finally returning the originally requested attribute from the
populated object. -/
theorem C2_protocol_order (w : World) (a : Adapter) (g : ImportGroup)
    (reg : List (String × Binding)) (p : Placeholder) (attr : String) (rid : Nat)
    (hres : (g.resolve a).2.2 = .ok ())
    (himp : (importModule w (g.unlock reg) p.name).2 = .ok rid) :
    (trap w a g reg p attr).trace =
      Event.setClassModuleType :: Event.unlockNames :: (g.resolve a).1 ++
        [Event.importReal, Event.keepRealRef, Event.copyDict] ∧
    (trap w a g reg p attr).ph.isVeryLazy = false ∧
    (trap w a g reg p attr).ph.realRef = some rid ∧
    (trap w a g reg p attr).ph.dict =
      p.dict ++ ["__real_module__"] ++ w.dictEnv rid ∧
    (attr ∈ p.dict ++ ["__real_module__"] ++ w.dictEnv rid →
      (trap w a g reg p attr).result = .ok attr) := by
  refine ⟨?_, ?_, ?_, ?_, ?_⟩
  · simp [trap, hres, himp, List.cons_append]
  · simp [trap, hres, himp]
  · simp [trap, hres, himp]
  · simp [trap, hres, himp]
  · intro h
    simp [trap, hres, himp]
    intro h1 h2
    rcases List.mem_append.mp h with h3 | h4
    · rcases List.mem_append.mp h3 with h5 | h6
      · exact absurd h5 h1
      · exact absurd (List.mem_singleton.mp h6) h2
    · exact h4

/-- Witness for C2: the concrete first access to `magic` returns it after the
full protocol. -/
theorem C2_protocol_order_witness :
    (trap wDummy adOk gReq regLocked phDummy "magic").result = .ok "magic" :=
  (C2_protocol_order wDummy adOk gReq regLocked phDummy "magic" 42 rfl rfl).2.2.2.2
    (by decide)

/-- C4: after a Guard exits, every name it registered whose registry binding
was still that Guard's own placeholder at exit time is rebound to the halting
sentinel, and loading that name through the ordinary (un-hooked) path then
fails with the halted-name `ModuleNotFoundError` — a recognizable subtype of
"unit not found" whose message carries the name and the word "halted" — rather
than silently succeeding. -/
theorem C4_locked_names_halt_ordinary_import (g : ImportGroup) (w : World)
    (chain chain2 : List Nat) (reg reg2 : List (String × Binding))
    (name : String) (mid : Nat)
    (hmem : (name, mid) ∈ g.modules)
    (hbind : lookupAssoc reg name = some (Binding.module mid))
    (hexit : g.exitCtx chain reg = .ok (chain2, reg2)) :
    lookupAssoc reg2 name = some Binding.locked ∧
    importModule w reg2 name =
      (reg2, .error (.moduleNotFound
        ("import of " ++ name ++ " halted; None in sys.modules"))) ∧
    PyError.isModuleNotFound (.moduleNotFound
      ("import of " ++ name ++ " halted; None in sys.modules")) = true ∧
    (∃ s t, "import of " ++ name ++ " halted; None in sys.modules" =
      s ++ name ++ t) ∧
    (∃ u v, "import of " ++ name ++ " halted; None in sys.modules" =
      u ++ "halted" ++ v) := by
  have hlock : g.lock reg = .ok reg2 := by
    rw [ImportGroup.exitCtx] at hexit
    split at hexit
    · exact absurd hexit (by simp)
    · split at hexit
      · exact absurd hexit (by simp)
      · rename_i hlk
        simp only [Except.ok.injEq, Prod.mk.injEq] at hexit
        rw [← hexit.2]
        exact hlk
  have hlocked : lookupAssoc reg2 name = some Binding.locked :=
    lockGo_locks g.modules reg reg2 name mid hmem hbind hlock
  refine ⟨hlocked, ?_, rfl, ?_, ?_⟩
  · simp [importModule, hlocked]
  · exact ⟨"import of ", " halted; None in sys.modules", rfl⟩
  · refine ⟨"import of " ++ name ++ " ", "; None in sys.modules", ?_⟩
    rw [strAppend_assoc ("import of " ++ name) " " "halted",
        strAppend_assoc ("import of " ++ name) (" " ++ "halted")
          "; None in sys.modules"]
    have hlit : (" " ++ "halted" ++ "; None in sys.modules" : String) =
        " halted; None in sys.modules" := by decide
    rw [hlit]

/-- Witness for C4: after `gReq` exits with `dummy` still bound to its own
placeholder, the ordinary import of `dummy` fails with the halted error. -/
theorem C4_locked_names_halt_ordinary_import_witness :
    importModule wDummy [("dummy", Binding.locked)] "dummy" =
      ([("dummy", Binding.locked)], .error (.moduleNotFound
        ("import of " ++ "dummy" ++ " halted; None in sys.modules"))) :=
  (C4_locked_names_halt_ordinary_import gReq wDummy [1] []
    [("dummy", Binding.module 10)] [("dummy", Binding.locked)] "dummy" 10
    (by decide) rfl rfl).2.1

/-- C5 (counterexample to the claim): on an unresolved placeholder the internal
bookkeeping name `__real_module__` is not guarded: accessing it triggers the
full self-replacement protocol — unlock, dependency resolution (dry run) and a
genuine load all occur. -/
theorem C5_counterexample :
    (getattrPy wDummy adOk gReq regLocked phDummy "__real_module__").trace ≠ [] ∧
    Event.unlockNames ∈
      (getattrPy wDummy adOk gReq regLocked phDummy "__real_module__").trace ∧
    Event.dryRun ∈
      (getattrPy wDummy adOk gReq regLocked phDummy "__real_module__").trace ∧
    Event.importReal ∈
      (getattrPy wDummy adOk gReq regLocked phDummy "__real_module__").trace := by
  decide

/-- C5 (amended): `__getattr__` guards no special names: on an unresolved
placeholder any trapped attribute — including the bookkeeping name
`__real_module__` — triggers the protocol (the access goes through the trap,
whose trace begins with the class transition and the unlock).  The protocol
cannot run twice, because its first step leaves the trapping class; and
`real_module` documents this behaviour as triggering resolution if necessary. -/
theorem C5_real_module_not_guarded (w : World) (a : Adapter) (g : ImportGroup)
    (reg : List (String × Binding)) (p : Placeholder)
    (hlazy : p.isVeryLazy = true) (hnot : "__real_module__" ∉ p.dict) :
    getattrPy w a g reg p "__real_module__" =
      trap w a g reg p "__real_module__" ∧
    (∃ rest, (trap w a g reg p "__real_module__").trace =
      Event.setClassModuleType :: Event.unlockNames :: rest) ∧
    (trap w a g reg p "__real_module__").ph.isVeryLazy = false := by
  refine ⟨by simp [getattrPy, hnot, hlazy], ?_, ?_⟩
  · cases hres : (g.resolve a).2.2 with
    | error e => exact ⟨(g.resolve a).1, by simp [trap, hres]⟩
    | ok u =>
        cases himp : (importModule w (g.unlock reg) p.name).2 with
        | error e =>
            exact ⟨(g.resolve a).1 ++ [Event.importReal],
              by simp [trap, hres, himp, List.cons_append]⟩
        | ok rid =>
            exact ⟨(g.resolve a).1 ++
              [Event.importReal, Event.keepRealRef, Event.copyDict],
              by simp [trap, hres, himp, List.cons_append]⟩
  · cases hres : (g.resolve a).2.2 with
    | error e => simp [trap, hres]
    | ok u =>
        cases himp : (importModule w (g.unlock reg) p.name).2 with
        | error e => simp [trap, hres, himp]
        | ok rid => simp [trap, hres, himp]

/-- Witness for C5: the amended behaviour at the concrete `dummy` scenario. -/
theorem C5_real_module_not_guarded_witness :
    (getattrPy wDummy adOk gReq regLocked phDummy "__real_module__" =
      trap wDummy adOk gReq regLocked phDummy "__real_module__") ∧
    (∃ rest, (trap wDummy adOk gReq regLocked phDummy "__real_module__").trace =
      Event.setClassModuleType :: Event.unlockNames :: rest) ∧
    (trap wDummy adOk gReq regLocked phDummy "__real_module__").ph.isVeryLazy =
      false :=
  C5_real_module_not_guarded wDummy adOk gReq regLocked phDummy rfl (by decide)

/-- C6: no re-entrant re-trigger: once a trapped access has begun, every
placeholder state visible during and after the protocol has left the trapping
class, so any attribute access on it — under any environment, installer,
group or registry — produces no protocol events; the trap fires only while the
placeholder is still unresolved. -/
theorem C6_no_reentrant_trigger (w : World) (a : Adapter) (g : ImportGroup)
    (reg : List (String × Binding)) (p : Placeholder) (attr : String)
    (hlazy : p.isVeryLazy = true) (hattr : attr ∉ p.dict) :
    ∀ q ∈ (getattrPy w a g reg p attr).states,
      q.isVeryLazy = false ∧
      ∀ (w2 : World) (a2 : Adapter) (g2 : ImportGroup)
        (reg2 : List (String × Binding)) (attr2 : String),
        (getattrPy w2 a2 g2 reg2 q attr2).trace = [] := by
  intro q hq
  have hg : getattrPy w a g reg p attr = trap w a g reg p attr := by
    simp [getattrPy, hattr, hlazy]
  rw [hg] at hq
  have hql : q.isVeryLazy = false := by
    cases hres : (g.resolve a).2.2 with
    | error e =>
        simp [trap, hres] at hq
        rw [hq]
    | ok u =>
        cases himp : (importModule w (g.unlock reg) p.name).2 with
        | error e =>
            simp [trap, hres, himp] at hq
            rw [hq]
        | ok rid =>
            simp [trap, hres, himp] at hq
            rcases hq with h1 | h2 | h3
            · rw [h1]
            · rw [h2]
            · rw [h3]
  exact ⟨hql, fun w2 a2 g2 reg2 attr2 =>
    getattrPy_no_trap w2 a2 g2 reg2 q attr2 hql⟩

/-- Witness for C6: a re-entrant access on the in-protocol state of the
`dummy` placeholder produces no protocol events. -/
theorem C6_no_reentrant_trigger_witness :
    (getattrPy wDummy adFailDry gPlain regLocked
      { phDummy with isVeryLazy := false } "anything").trace = [] :=
  (C6_no_reentrant_trigger wDummy adOk gReq regLocked phDummy "magic" rfl
    (by decide) { phDummy with isVeryLazy := false } (by decide)).2
    wDummy adFailDry gPlain regLocked "anything"

/-- C7: `_pip_install` always performs the dry run first, and performs the real
install and the cache invalidation iff the dry-run plan's install list is
non-empty; a first attribute access on a guarded unit with a pending dependency
spec performs exactly one dry run, exactly one real install and exactly one
genuine load, in that order. -/
theorem C7_dry_run_then_install_then_load (w : World) (a : Adapter)
    (g : ImportGroup) (reg : List (String × Binding)) (p : Placeholder)
    (attr : String) (report : PipReport) (rid : Nat)
    (hdry : a.dryRunResult = .ok report) (hinst : a.installResult = .ok ()) :
    (pipInstall a).1.head? = some Event.dryRun ∧
    (Event.pipInstallReal ∈ (pipInstall a).1 ↔ report.install ≠ []) ∧
    (Event.invalidateCaches ∈ (pipInstall a).1 ↔ report.install ≠ []) ∧
    (report.install ≠ [] → g.need_install = true → g.requires.isNone = false →
      (importModule w (g.unlock reg) p.name).2 = .ok rid →
      (trap w a g reg p attr).trace =
        [Event.setClassModuleType, Event.unlockNames, Event.dryRun,
         Event.pipInstallReal, Event.invalidateCaches, Event.importReal,
         Event.keepRealRef, Event.copyDict] ∧
      ((trap w a g reg p attr).trace.count Event.dryRun = 1 ∧
        (trap w a g reg p attr).trace.count Event.pipInstallReal = 1 ∧
        (trap w a g reg p attr).trace.count Event.importReal = 1) ∧
      (eventIdx (trap w a g reg p attr).trace Event.dryRun <
        eventIdx (trap w a g reg p attr).trace Event.pipInstallReal ∧
       eventIdx (trap w a g reg p attr).trace Event.pipInstallReal <
        eventIdx (trap w a g reg p attr).trace Event.importReal)) := by
  cases hri : report.install with
  | nil =>
      refine ⟨?_, ?_, ?_, ?_⟩
      · simp [pipInstall, hdry, hri]
      · simp [pipInstall, hdry, hri]
      · simp [pipInstall, hdry, hri]
      · intro hne
        exact absurd rfl hne
  | cons ent rest =>
      have hpip : pipInstall a =
          ([Event.dryRun, Event.pipInstallReal, Event.invalidateCaches],
            .ok ()) := by
        simp [pipInstall, hdry, hri, hinst]
      refine ⟨?_, ?_, ?_, ?_⟩
      · simp [hpip]
      · simp [hpip, hri]
      · simp [hpip, hri]
      · intro hne hni hreq himp
        have hres : g.resolve a =
            ([Event.dryRun, Event.pipInstallReal, Event.invalidateCaches],
              { g with need_install := false }, .ok ()) := by
          simp [ImportGroup.resolve, hni, hreq, hpip]
        have htr : (trap w a g reg p attr).trace =
            [Event.setClassModuleType, Event.unlockNames, Event.dryRun,
             Event.pipInstallReal, Event.invalidateCaches, Event.importReal,
             Event.keepRealRef, Event.copyDict] := by
          simp [trap, hres, himp]
        refine ⟨htr, ?_, ?_⟩
        · rw [htr]
          decide
        · rw [htr]
          decide

/-- Witness for C7: the concrete first access to `magic` on the guarded
`dummy` unit with a pending dependency spec. -/
theorem C7_dry_run_then_install_then_load_witness :
    (trap wDummy adOk gReq regLocked phDummy "magic").trace =
      [Event.setClassModuleType, Event.unlockNames, Event.dryRun,
       Event.pipInstallReal, Event.invalidateCaches, Event.importReal,
       Event.keepRealRef, Event.copyDict] ∧
    ((trap wDummy adOk gReq regLocked phDummy "magic").trace.count
        Event.dryRun = 1 ∧
      (trap wDummy adOk gReq regLocked phDummy "magic").trace.count
        Event.pipInstallReal = 1 ∧
      (trap wDummy adOk gReq regLocked phDummy "magic").trace.count
        Event.importReal = 1) ∧
    (eventIdx (trap wDummy adOk gReq regLocked phDummy "magic").trace
        Event.dryRun <
      eventIdx (trap wDummy adOk gReq regLocked phDummy "magic").trace
        Event.pipInstallReal ∧
     eventIdx (trap wDummy adOk gReq regLocked phDummy "magic").trace
        Event.pipInstallReal <
      eventIdx (trap wDummy adOk gReq regLocked phDummy "magic").trace
        Event.importReal) :=
  (C7_dry_run_then_install_then_load wDummy adOk gReq regLocked phDummy "magic"
    reportOne 42 rfl rfl).2.2.2 (by decide) rfl rfl rfl

end SlicerLazy
